import Mathlib

/-!
Shallow embedding of the gemini-file-api-retrieval-sandbox client.

Two layers are modelled, following the source:
- the remote RAG service client (`src/services/geminiService.ts`): each
  exported function is embedded as a pure function from the module-level
  client handle (`ai`, an `Option Unit`) and a `ServiceEnv` describing the
  responses of the remote service, to an `Except`-valued result paired with the
  list of remote requests the function issued;
- the application state controller (`App`, `src/unnamed/part_000`): each
  `handleX` callback is embedded as a pure function from a `CtrlEnv`
  describing the outcomes of the awaited service calls and the current
  `AppState` to the resulting `AppState` paired with the list of service
  calls the handler issued.

JavaScript falsiness on strings (`undefined` and `""` are both falsy) is
modelled explicitly wherever the source uses `!x` or `x || y` on a string.
-/

deriving instance DecidableEq for Except

namespace RagSandbox

/-- `RagStore` from types.ts: `{ name, displayName }`. -/
structure RagStore where
  name : String
  displayName : String
deriving DecidableEq

/-- `StringList` payload of `CustomMetadata.stringListValue` from types.ts. -/
structure StringList where
  values : Option (List String)
deriving DecidableEq

/-- `CustomMetadata` from types.ts. `numericValue : number` is modelled as an
integer; no code path in scope computes with it, it is passed through opaquely. -/
structure CustomMetadata where
  key : Option String
  stringValue : Option String
  stringListValue : Option StringList
  numericValue : Option Int
deriving DecidableEq

/-- `Document` from types.ts: `{ name, displayName, customMetadata? }`. -/
structure Document where
  name : String
  displayName : String
  customMetadata : Option (List CustomMetadata)
deriving DecidableEq

/-- `GroundingChunk.retrievedContext` from types.ts: `{ text?: string }`. -/
structure RetrievedContext where
  text : Option String
deriving DecidableEq

/-- `GroundingChunk` from types.ts. -/
structure GroundingChunk where
  retrievedContext : Option RetrievedContext
deriving DecidableEq

/-- `QueryResult` from types.ts: `{ text, groundingChunks }`. -/
structure QueryResult where
  text : String
  groundingChunks : List GroundingChunk
deriving DecidableEq

/-! ### Remote service wire data (what the SDK returns to geminiService.ts) -/

/-- A corpus resource as returned by the remote listing: `name` is present,
`displayName` may be absent. -/
structure Corpus where
  name : String
  displayName : Option String
deriving DecidableEq

/-- A document resource as returned by the remote listing. -/
structure ApiDocument where
  name : String
  displayName : Option String
  customMetadata : Option (List CustomMetadata)
deriving DecidableEq

/-- One page of the remote corpora listing, with its continuation token. -/
structure CorporaPage where
  corpora : List Corpus
  nextPageToken : Option String
deriving DecidableEq

/-- One page of the remote documents listing, with its continuation token. -/
structure DocumentsPage where
  documents : List ApiDocument
  nextPageToken : Option String
deriving DecidableEq

/-- The file resource inside an `ai.files.upload` response; `uri` may be
absent (or empty, which JavaScript treats the same). -/
structure UploadedFile where
  name : String
  uri : Option String
deriving DecidableEq

/-- The `ai.files.upload` response: `file` may be absent. -/
structure UploadResponse where
  file : Option UploadedFile
deriving DecidableEq

/-- The remote service as seen by geminiService.ts: the paginated listings it
would serve, the upload response it returns, the corpus name returned by
`createCorpus`, the generated answer, and — for the mocked
long-running operation of the spec — how many polls would report `done=false` before the
operation completes. -/
structure ServiceEnv where
  corporaPages : List CorporaPage
  documentPages : String → List DocumentsPage
  uploadResponse : UploadResponse
  createdCorpusName : Option String
  generatedText : String
  generatedChunks : List GroundingChunk
  pollsUntilDone : Nat

/-- A remote request issued by geminiService.ts, as it appears on the wire.
`deleteDocument` and `deleteCorpus` record the optional `force` flag actually
sent; `getOperation` is a long-running-operation status check. -/
inductive Request where
  | listCorpora : Request
  | listDocuments (parent : String) : Request
  | createCorpus (displayName : String) : Request
  | filesUpload (fileName : String) : Request
  | createDocument (parent : String) (docName : String) (docDisplayName : String)
      (metadata : Option (List CustomMetadata)) : Request
  | getOperation (name : String) : Request
  | deleteDocument (name : String) (force : Option Bool) : Request
  | deleteCorpus (name : String) (force : Option Bool) : Request
  | generateContent (corpus : String) (query : String) : Request
deriving DecidableEq

/-- JavaScript `s || fallback` on strings: `undefined` and `""` both fall
through to the fallback. -/
def jsOr (s : Option String) (fallback : String) : String :=
  match s with
  | none => fallback
  | some v => if v = "" then fallback else v

/-- JavaScript splitting on the slash character followed by an index access,
interpolated into a template string: an out-of-range index yields undefined,
which interpolates as the text undefined. -/
def jsSplitIdx (s : String) (i : Nat) : String :=
  (s.splitOn "/").getD i "undefined"

/-- JavaScript last-segment fallback, geminiService.ts line 44: split `name`
on the slash character and take the last segment (`split` never returns an
empty array), falling back to `name` when that segment is empty. -/
def lastSegmentOr (name : String) : String :=
  match (name.splitOn "/").getLast? with
  | some l => if l = "" then name else l
  | none => name

/-- The display-name fallback chain used by `listRagStores` and
`listDocuments`: the displayName when truthy, else the last segment of the
resource name, else the resource name itself. -/
def fallbackDisplayName (displayName : Option String) (name : String) : String :=
  jsOr displayName (lastSegmentOr name)

/-- Mapping from a wire corpus to a `RagStore` (geminiService.ts:42-45). -/
def corpusToStore (c : Corpus) : RagStore :=
  { name := c.name, displayName := fallbackDisplayName c.displayName c.name }

/-- Mapping from a wire document to a `Document` (geminiService.ts:54-58). -/
def apiDocToDocument (f : ApiDocument) : Document :=
  { name := f.name, displayName := fallbackDisplayName f.displayName f.name,
    customMetadata := f.customMetadata }

/-- The error thrown by every service function when the module-level `ai`
client has not been initialized. -/
def notInitializedMsg : String := "Gemini AI not initialized"

/-- `listRagStores` (geminiService.ts:37-47): one `listCorpora` request; reads
`response.corpora || []` from the first page only and maps it. -/
def listRagStores (ai : Option Unit) (env : ServiceEnv) :
    Except String (List RagStore) × List Request :=
  match ai with
  | none => (Except.error notInitializedMsg, [])
  | some _ =>
    let corpora := ((env.corporaPages.head?).map CorporaPage.corpora).getD []
    (Except.ok (corpora.map corpusToStore), [Request.listCorpora])

/-- `listDocuments` (geminiService.ts:49-60): one `listDocuments` request for
the given parent; reads `response.documents || []` from the first page only
and maps it. -/
def listDocumentsSvc (ai : Option Unit) (env : ServiceEnv) (ragStoreName : String) :
    Except String (List Document) × List Request :=
  match ai with
  | none => (Except.error notInitializedMsg, [])
  | some _ =>
    let files := (((env.documentPages ragStoreName).head?).map DocumentsPage.documents).getD []
    (Except.ok (files.map apiDocToDocument), [Request.listDocuments ragStoreName])

/-- `createRagStore` (geminiService.ts:62-70): one `createCorpus` request;
fails when the returned corpus has no (or an empty, JS-falsy) name. -/
def createRagStore (ai : Option Unit) (env : ServiceEnv) (displayName : String) :
    Except String String × List Request :=
  match ai with
  | none => (Except.error notInitializedMsg, [])
  | some _ =>
    match env.createdCorpusName with
    | none => (Except.error "Failed to create RAG store: name is missing.",
               [Request.createCorpus displayName])
    | some n =>
      if n = "" then
        (Except.error "Failed to create RAG store: name is missing.",
         [Request.createCorpus displayName])
      else (Except.ok n, [Request.createCorpus displayName])

/-- `uploadToRagStore` (geminiService.ts:72-95): uploads the file via the File
Service, then links it to the corpus with a single `createDocument` request.
There is no operation polling anywhere in this function: it never issues a
`getOperation` request, and `env.pollsUntilDone` is never consulted. -/
def uploadToRagStore (ai : Option Unit) (env : ServiceEnv) (ragStoreName : String)
    (fileName : String) (metadata : List CustomMetadata) :
    Except String Unit × List Request :=
  match ai with
  | none => (Except.error notInitializedMsg, [])
  | some _ =>
    match env.uploadResponse.file with
    | none =>
      (Except.error "File upload did not return a valid file resource with a URI.",
       [Request.filesUpload fileName])
    | some f =>
      match f.uri with
      | none =>
        (Except.error "File upload did not return a valid file resource with a URI.",
         [Request.filesUpload fileName])
      | some u =>
        if u = "" then
          (Except.error "File upload did not return a valid file resource with a URI.",
           [Request.filesUpload fileName])
        else
          let docName := "corpora/" ++ jsSplitIdx ragStoreName 1 ++ "/documents/"
            ++ jsSplitIdx f.name 1
          (Except.ok (),
           [Request.filesUpload fileName,
            Request.createDocument ragStoreName docName fileName
              (if metadata.length > 0 then some metadata else none)])

/-- `deleteDocument` (geminiService.ts:97-104): one delete request carrying
only the full resource name of the document — no `force` flag is set. -/
def deleteDocumentSvc (ai : Option Unit) (docName : String) :
    Except String Unit × List Request :=
  match ai with
  | none => (Except.error notInitializedMsg, [])
  | some _ => (Except.ok (), [Request.deleteDocument docName none])

/-- `fileSearch` (geminiService.ts:106-131): one `generateContent` request
grounded on the named corpus; reads the grounding chunks of the first candidate. -/
def fileSearch (ai : Option Unit) (env : ServiceEnv) (ragStoreName : String)
    (query : String) : Except String QueryResult × List Request :=
  match ai with
  | none => (Except.error notInitializedMsg, [])
  | some _ =>
    (Except.ok { text := env.generatedText, groundingChunks := env.generatedChunks },
     [Request.generateContent ragStoreName query])

/-- `deleteRagStore` (geminiService.ts:133-139): one delete request with
`force: true`. -/
def deleteRagStore (ai : Option Unit) (ragStoreName : String) :
    Except String Unit × List Request :=
  match ai with
  | none => (Except.error notInitializedMsg, [])
  | some _ => (Except.ok (), [Request.deleteCorpus ragStoreName (some true)])

/-- Number of long-running-operation status checks among the issued requests. -/
def countStatusChecks (reqs : List Request) : Nat :=
  reqs.countP fun r =>
    match r with
    | Request.getOperation _ => true
    | _ => false

/-- Written from the words of the spec, for comparison with `listRagStores`: the
result of fully draining every page of the remote corpora listing, in service
order. -/
def drainedStores (env : ServiceEnv) : List RagStore :=
  ((env.corporaPages.map CorporaPage.corpora).flatten).map corpusToStore

/-- Written from the words of the spec, for comparison with `listDocumentsSvc`: the
result of fully draining every page of the remote documents listing of the
given store, in service order. -/
def drainedDocuments (env : ServiceEnv) (ragStoreName : String) : List Document :=
  (((env.documentPages ragStoreName).map DocumentsPage.documents).flatten).map apiDocToDocument

/-! ### Application state controller (`App`, src/unnamed/part_000) -/

/-- The React state of the controller (src/unnamed/part_000:15-24). -/
structure AppState where
  stores : List RagStore
  selectedStore : Option RagStore
  documents : List Document
  queryResult : Option QueryResult
  isLoadingStores : Bool
  isLoadingDocuments : Bool
  isQuerying : Bool
  processingFile : Option String
  error : Option String
  initialized : Bool
deriving DecidableEq

/-- The initial state of a fresh session (the `useState` defaults). -/
def initialAppState : AppState :=
  { stores := [], selectedStore := none, documents := [], queryResult := none,
    isLoadingStores := false, isLoadingDocuments := false, isQuerying := false,
    processingFile := none, error := none, initialized := false }

/-- A service call awaited by a controller handler. -/
inductive CtrlCall where
  | initClient : CtrlCall
  | listStores : CtrlCall
  | listDocs (store : String) : CtrlCall
  | createStore (displayName : String) : CtrlCall
  | deleteStore (storeName : String) : CtrlCall
  | upload (store : String) (fileName : String) (metadata : List CustomMetadata) : CtrlCall
  | deleteDoc (docName : String) : CtrlCall
  | fileSearchCall (store : String) (query : String) : CtrlCall
deriving DecidableEq

/-- The outcomes of the awaited service calls, as the single-threaded event
loop delivers them to the controller: each awaited promise either resolves
with a value or rejects with an error message. `apiKey` is
`process.env.API_KEY` (absent, or present possibly empty); `confirmDelete` is
the answer of the user to the `window.confirm` gate of `handleDeleteStore`. -/
structure CtrlEnv where
  apiKey : Option String
  listStoresOutcome : Except String (List RagStore)
  listDocsOutcome : String → Except String (List Document)
  createStoreOutcome : String → Except String String
  deleteStoreOutcome : String → Except String Unit
  uploadOutcome : Except String Unit
  deleteDocOutcome : String → Except String Unit
  queryOutcome : Except String QueryResult
  confirmDelete : Bool

/-- `geminiService.initialize` (geminiService.ts:30-35): throws when
`process.env.API_KEY` is JS-falsy (absent or empty), otherwise constructs
the client. -/
def svcInit (apiKey : Option String) : Except String Unit :=
  match apiKey with
  | none => Except.error "API_KEY environment variable not set."
  | some k =>
    if k = "" then Except.error "API_KEY environment variable not set."
    else Except.ok ()

/-- `handleError` (src/unnamed/part_000:26-30): sets the error state to the
message, suffixed with ": cause" when a cause is present and nonempty. -/
def handleErrorState (message : String) (err : Option String) (st : AppState) : AppState :=
  let errorMessage := err.getD ""
  { st with error := some (message ++ (if errorMessage = "" then "" else ": " ++ errorMessage)) }

/-- The error message of the catch block of `loadStores`. -/
def loadStoresFailMsg : String :=
  "Failed to load RAG stores. Please ensure your API key is valid and has permissions."

/-- `loadStores` (src/unnamed/part_000:40-53): sets Stores-loading, clears the
error, calls `geminiService.initialize()` then `listRagStores()`; on success
stores the list and sets `initialized=true`; on failure reports the error;
the loading flag is cleared in `finally`. -/
def loadStores (env : CtrlEnv) (st : AppState) : AppState × List CtrlCall :=
  let st1 : AppState := { st with isLoadingStores := true, error := none }
  match svcInit env.apiKey with
  | Except.error e =>
    ({ handleErrorState loadStoresFailMsg (some e) st1 with isLoadingStores := false },
     [CtrlCall.initClient])
  | Except.ok _ =>
    match env.listStoresOutcome with
    | Except.ok fetched =>
      ({ st1 with stores := fetched, initialized := true, isLoadingStores := false },
       [CtrlCall.initClient, CtrlCall.listStores])
    | Except.error e =>
      ({ handleErrorState loadStoresFailMsg (some e) st1 with isLoadingStores := false },
       [CtrlCall.initClient, CtrlCall.listStores])

/-- `clearError` (src/unnamed/part_000:32-38): clears the error, and when the
session never initialized, re-runs `loadStores`. -/
def clearError (env : CtrlEnv) (st : AppState) : AppState × List CtrlCall :=
  let st1 : AppState := { st with error := none }
  if st.initialized then (st1, []) else loadStores env st1

/-- `handleCreateStore` (src/unnamed/part_000:61-70). -/
def handleCreateStore (env : CtrlEnv) (displayName : String) (st : AppState) :
    AppState × List CtrlCall :=
  let st1 : AppState := { st with isLoadingStores := true }
  match env.createStoreOutcome displayName with
  | Except.ok _ =>
    ((loadStores env st1).1, CtrlCall.createStore displayName :: (loadStores env st1).2)
  | Except.error e =>
    ({ handleErrorState "Failed to create store" (some e) st1 with isLoadingStores := false },
     [CtrlCall.createStore displayName])

/-- The state of `handleDeleteStore` right after the remote delete succeeded:
when the deleted store is the selected one, `selectedStore` and `documents`
are cleared (src/unnamed/part_000:77-80). -/
def deleteStoreCleared (storeName : String) (st : AppState) : AppState :=
  if st.selectedStore.map RagStore.name = some storeName then
    { st with selectedStore := none, documents := [] }
  else st

/-- `handleDeleteStore` (src/unnamed/part_000:72-86): gated on
`window.confirm`; sets Stores-loading; on successful delete clears the
selection if it was the deleted store, then reloads the store list; on
failure reports the error and clears the loading flag. -/
def handleDeleteStore (env : CtrlEnv) (storeName : String) (st : AppState) :
    AppState × List CtrlCall :=
  if !env.confirmDelete then (st, [])
  else
    let st1 : AppState := { st with isLoadingStores := true }
    match env.deleteStoreOutcome storeName with
    | Except.ok _ =>
      ((loadStores env (deleteStoreCleared storeName st1)).1,
       CtrlCall.deleteStore storeName :: (loadStores env (deleteStoreCleared storeName st1)).2)
    | Except.error e =>
      ({ handleErrorState "Failed to delete store" (some e) st1 with isLoadingStores := false },
       [CtrlCall.deleteStore storeName])

/-- The state of `handleSelectStore` at the moment the document fetch is
dispatched: the selection replaced, `documents` and `queryResult` cleared,
Documents-loading set (src/unnamed/part_000:90-93). -/
def selectStoreDispatch (store : RagStore) (st : AppState) : AppState :=
  { st with
    selectedStore := some store, documents := [], queryResult := none,
    isLoadingDocuments := true }

/-- `handleSelectStore` (src/unnamed/part_000:88-102): no-op when the store is
already selected; otherwise replaces the selection, clears `documents` and
`queryResult`, and fetches the documents of the new store. -/
def handleSelectStore (env : CtrlEnv) (store : RagStore) (st : AppState) :
    AppState × List CtrlCall :=
  if st.selectedStore.map RagStore.name = some store.name then (st, [])
  else
    let st1 := selectStoreDispatch store st
    match env.listDocsOutcome store.name with
    | Except.ok fetched =>
      ({ st1 with documents := fetched, isLoadingDocuments := false },
       [CtrlCall.listDocs store.name])
    | Except.error e =>
      ({ handleErrorState ("Failed to load documents for " ++ store.displayName) (some e) st1 with
          isLoadingDocuments := false },
       [CtrlCall.listDocs store.name])

/-- `handleUploadDocument` (src/unnamed/part_000:104-116): returns immediately
when no store is selected; sets `processingFile`; on successful upload
refreshes the document list (inside the same `try`); any failure goes to the
catch block; `processingFile` is cleared in `finally`. -/
def handleUploadDocument (env : CtrlEnv) (fileName : String) (metadata : List CustomMetadata)
    (st : AppState) : AppState × List CtrlCall :=
  match st.selectedStore with
  | none => (st, [])
  | some sel =>
    let st1 : AppState := { st with processingFile := some fileName }
    match env.uploadOutcome with
    | Except.ok _ =>
      match env.listDocsOutcome sel.name with
      | Except.ok fetched =>
        ({ st1 with documents := fetched, processingFile := none },
         [CtrlCall.upload sel.name fileName metadata, CtrlCall.listDocs sel.name])
      | Except.error e =>
        ({ handleErrorState ("Failed to upload " ++ fileName) (some e) st1 with
            processingFile := none },
         [CtrlCall.upload sel.name fileName metadata, CtrlCall.listDocs sel.name])
    | Except.error e =>
      ({ handleErrorState ("Failed to upload " ++ fileName) (some e) st1 with
          processingFile := none },
       [CtrlCall.upload sel.name fileName metadata])

/-- The display name used by `handleDeleteDocument` for the processing label
(src/unnamed/part_000:120): the displayName of the matching document when
truthy, else the literal fallback word document. -/
def docDisplayNameFor (docs : List Document) (docName : String) : String :=
  jsOr ((docs.find? fun d => d.name = docName).map Document.displayName) "document"

/-- `handleDeleteDocument` (src/unnamed/part_000:118-131): returns immediately
when no store is selected; sets `processingFile` to the display
name of the document; on successful delete refreshes the document list (inside the same
`try`); `processingFile` is cleared in `finally`. -/
def handleDeleteDocument (env : CtrlEnv) (docName : String) (st : AppState) :
    AppState × List CtrlCall :=
  match st.selectedStore with
  | none => (st, [])
  | some sel =>
    let dn := docDisplayNameFor st.documents docName
    let st1 : AppState := { st with processingFile := some dn }
    match env.deleteDocOutcome docName with
    | Except.ok _ =>
      match env.listDocsOutcome sel.name with
      | Except.ok fetched =>
        ({ st1 with documents := fetched, processingFile := none },
         [CtrlCall.deleteDoc docName, CtrlCall.listDocs sel.name])
      | Except.error e =>
        ({ handleErrorState ("Failed to delete " ++ dn) (some e) st1 with
            processingFile := none },
         [CtrlCall.deleteDoc docName, CtrlCall.listDocs sel.name])
    | Except.error e =>
      ({ handleErrorState ("Failed to delete " ++ dn) (some e) st1 with
          processingFile := none },
       [CtrlCall.deleteDoc docName])

/-- The state of `handleQuery` at the moment the query is dispatched:
Query-loading set and any previous result cleared (src/unnamed/part_000:135-136). -/
def queryDispatch (st : AppState) : AppState :=
  { st with isQuerying := true, queryResult := none }

/-- `handleQuery` (src/unnamed/part_000:133-145): returns immediately when no
store is selected; sets Query-loading, clears the previous result, issues the
query; stores the result on success, reports the error on failure; the
loading flag is cleared in `finally`. -/
def handleQuery (env : CtrlEnv) (query : String) (st : AppState) :
    AppState × List CtrlCall :=
  match st.selectedStore with
  | none => (st, [])
  | some sel =>
    let st1 := queryDispatch st
    match env.queryOutcome with
    | Except.ok r =>
      ({ st1 with queryResult := some r, isQuerying := false },
       [CtrlCall.fileSearchCall sel.name query])
    | Except.error e =>
      ({ handleErrorState "Failed to execute query" (some e) st1 with isQuerying := false },
       [CtrlCall.fileSearchCall sel.name query])

/-! ## Concrete fixtures used by counterexamples and witnesses -/

/-- A service environment with a valid upload response and a mocked
long-running operation that would report `done=false` zero times. -/
def c1Env : ServiceEnv :=
  { corporaPages := [], documentPages := fun _ => [],
    uploadResponse :=
      { file := some { name := "files/abc123", uri := some "https://files/abc123" } },
    createdCorpusName := none, generatedText := "", generatedChunks := [],
    pollsUntilDone := 0 }

/-- A service environment whose corpora listing and (for store "corpora/a")
documents listing both span two pages, the second page nonempty. -/
def c2Env : ServiceEnv :=
  { corporaPages :=
      [{ corpora := [{ name := "corpora/a", displayName := some "Alpha" }],
         nextPageToken := some "tok1" },
       { corpora := [{ name := "corpora/b", displayName := some "Beta" }],
         nextPageToken := none }],
    documentPages := fun s =>
      if s = "corpora/a" then
        [{ documents := [{ name := "corpora/a/documents/d1", displayName := some "D1",
                           customMetadata := none }],
           nextPageToken := some "tok2" },
         { documents := [{ name := "corpora/a/documents/d2", displayName := some "D2",
                           customMetadata := none }],
           nextPageToken := none }]
      else [],
    uploadResponse := { file := none }, createdCorpusName := none,
    generatedText := "", generatedChunks := [], pollsUntilDone := 0 }

/-- A store fixture. -/
def storeA : RagStore := { name := "corpora/a", displayName := "Alpha" }

/-- A second store fixture, distinct from `storeA`. -/
def storeB : RagStore := { name := "corpora/b", displayName := "Beta" }

/-- A document fixture living in `storeA`. -/
def docD1 : Document :=
  { name := "corpora/a/documents/d1", displayName := "D1", customMetadata := none }

/-- A document fixture living in `storeB`. -/
def docX : Document :=
  { name := "corpora/b/documents/x", displayName := "X", customMetadata := none }

/-- A controller environment where every awaited call resolves. -/
def baseCtrlEnv : CtrlEnv :=
  { apiKey := some "key", listStoresOutcome := Except.ok [],
    listDocsOutcome := fun _ => Except.ok [],
    createStoreOutcome := fun _ => Except.ok "corpora/new",
    deleteStoreOutcome := fun _ => Except.ok (),
    uploadOutcome := Except.ok (),
    deleteDocOutcome := fun _ => Except.ok (),
    queryOutcome := Except.ok { text := "answer", groundingChunks := [] },
    confirmDelete := true }

/-- A controller environment whose upload rejects while the document listing
resolves with the empty list. -/
def c3Env : CtrlEnv := { baseCtrlEnv with uploadOutcome := Except.error "network error" }

/-- A state with `storeA` selected and one document listed. -/
def c3St : AppState :=
  { initialAppState with selectedStore := some storeA, documents := [docD1] }

/-- The parent store of a document, read off its resource name
(`corpora/<id>/documents/...`), tabulated for the fixture documents. -/
def c4Parent (d : Document) : String :=
  if d.name = "corpora/b/documents/x" then "corpora/b"
  else if d.name = "corpora/a/documents/d1" then "corpora/a"
  else ""

/-- A controller environment with the credential absent. -/
def c9Env : CtrlEnv := { baseCtrlEnv with apiKey := none }

/-- A controller environment whose document listing returns `docX` for
`storeB` and nothing for any other store. -/
def c4Env : CtrlEnv :=
  { baseCtrlEnv with
    listDocsOutcome := fun s => Except.ok (if s = "corpora/b" then [docX] else []) }

/-! ## Theorems -/

/-- C8: calling any client operation (listStores, listDocuments, createStore,
uploadDocument, deleteDocument, query, deleteStore) before `initialize()` has
succeeded fails with the not-initialized error and issues no remote request. -/
theorem c8_operations_require_initialization :
    ∀ (env : ServiceEnv) (storeName docName displayName fileName q : String)
      (metadata : List CustomMetadata),
      listRagStores none env = (Except.error notInitializedMsg, []) ∧
      listDocumentsSvc none env storeName = (Except.error notInitializedMsg, []) ∧
      createRagStore none env displayName = (Except.error notInitializedMsg, []) ∧
      uploadToRagStore none env storeName fileName metadata
        = (Except.error notInitializedMsg, []) ∧
      deleteDocumentSvc none docName = (Except.error notInitializedMsg, []) ∧
      fileSearch none env storeName q = (Except.error notInitializedMsg, []) ∧
      deleteRagStore none storeName = (Except.error notInitializedMsg, []) := by
  intro env storeName docName displayName fileName q metadata
  exact ⟨rfl, rfl, rfl, rfl, rfl, rfl, rfl⟩

/-- C7 counterexample: at a concrete input, the delete request issued by the
delete request issued by deleteDocument does not carry `force=true` — the claim that the
remote delete is issued with `force=true` is false. -/
theorem c7_counterexample :
    Request.deleteDocument "corpora/a/documents/d1" (some true) ∉
      (deleteDocumentSvc (some ()) "corpora/a/documents/d1").2 := by
  decide

/-- C7 amended: deleteDocument issues exactly one remote delete request,
carrying only the resource name of the document, with no `force` flag at
all. -/
theorem c7_delete_document_sends_no_force (docName : String) :
    deleteDocumentSvc (some ()) docName
      = (Except.ok (), [Request.deleteDocument docName none]) := rfl

/-- C1 counterexample: for a mocked operation that reports `done=false` for
N=0 polls, the claim demands exactly 1 status check before resolution, but
`uploadToRagStore` performs 0 status checks at this concrete input. -/
theorem c1_counterexample :
    countStatusChecks (uploadToRagStore (some ()) c1Env "corpora/store1" "notes.txt" []).2
      ≠ c1Env.pollsUntilDone + 1 := by
  decide

/-- C1 amended: `uploadToRagStore` performs no operation polling at all: it
issues zero long-running-operation status checks for every environment and
argument list (in particular, never N+1 of them and at no fixed interval);
it resolves successfully exactly when the file-service upload returns a file
resource with a nonempty URI, and then its request list is exactly one
file-service upload followed by one `createDocument` request (with the
constructed document resource name, the display name, and the metadata sent
only when nonempty); on failure it has issued only the single file-service
upload request. -/
theorem c1_upload_never_polls (env : ServiceEnv) (ragStoreName fileName : String)
    (metadata : List CustomMetadata) :
    countStatusChecks (uploadToRagStore (some ()) env ragStoreName fileName metadata).2 = 0 ∧
    ((uploadToRagStore (some ()) env ragStoreName fileName metadata).1 = Except.ok () ↔
      ∃ f u, env.uploadResponse.file = some f ∧ f.uri = some u ∧ u ≠ "") ∧
    ((uploadToRagStore (some ()) env ragStoreName fileName metadata).1 = Except.ok () →
      ∃ f, env.uploadResponse.file = some f ∧
        (uploadToRagStore (some ()) env ragStoreName fileName metadata).2 =
          [Request.filesUpload fileName,
           Request.createDocument ragStoreName
             ("corpora/" ++ jsSplitIdx ragStoreName 1 ++ "/documents/" ++ jsSplitIdx f.name 1)
             fileName
             (if metadata.length > 0 then some metadata else none)]) ∧
    ((uploadToRagStore (some ()) env ragStoreName fileName metadata).1 ≠ Except.ok () →
      (uploadToRagStore (some ()) env ragStoreName fileName metadata).2 =
        [Request.filesUpload fileName]) := by
  rcases hf : env.uploadResponse.file with _ | f
  · simp [uploadToRagStore, countStatusChecks, hf]
  · rcases hu : f.uri with _ | u
    · simp [uploadToRagStore, countStatusChecks, hf, hu]
    · by_cases he : u = ""
      · simp [uploadToRagStore, countStatusChecks, hf, hu, he]
      · simp [uploadToRagStore, countStatusChecks, hf, hu, he]

/-- C2 counterexample: at a concrete environment whose listings span two
pages, neither listStores nor listDocuments returns the fully drained
sequence — both miss the second page. -/
theorem c2_counterexample :
    (listRagStores (some ()) c2Env).1 ≠ Except.ok (drainedStores c2Env) ∧
    (listDocumentsSvc (some ()) c2Env "corpora/a").1
      ≠ Except.ok (drainedDocuments c2Env "corpora/a") := by
  constructor
  · decide
  · decide

/-- C2 amended: listStores and listDocuments issue a single list request and
return exactly the first page of the remote listing (mapped, in service
order), i.e. the result the full drain would give if the listing had only its
first page; continuation pages are never fetched. -/
theorem c2_first_page_only (env : ServiceEnv) (storeName : String) :
    (listRagStores (some ()) env).1
      = Except.ok (drainedStores { env with corporaPages := env.corporaPages.take 1 }) ∧
    (listRagStores (some ()) env).2 = [Request.listCorpora] ∧
    (listDocumentsSvc (some ()) env storeName).1
      = Except.ok (drainedDocuments
          { env with documentPages := fun s => (env.documentPages s).take 1 } storeName) ∧
    (listDocumentsSvc (some ()) env storeName).2 = [Request.listDocuments storeName] := by
  refine ⟨?_, rfl, ?_, rfl⟩
  · rcases hp : env.corporaPages with _ | ⟨p, ps⟩
    · simp [listRagStores, drainedStores, hp]
    · simp [listRagStores, drainedStores, hp]
  · rcases hp : env.documentPages storeName with _ | ⟨p, ps⟩
    · simp [listDocumentsSvc, drainedDocuments, hp]
    · simp [listDocumentsSvc, drainedDocuments, hp]

/-- After any `handleSelectStore env S st`, the name of the selected store is
`S.name`: either it already was (no-op branch) or the handler replaced the
selection with `S`. -/
theorem selectStore_selectedName (env : CtrlEnv) (S : RagStore) (st : AppState) :
    (handleSelectStore env S st).1.selectedStore.map RagStore.name = some S.name := by
  by_cases h : st.selectedStore.map RagStore.name = some S.name
  · simp only [handleSelectStore, if_pos h]
    exact h
  · simp only [handleSelectStore, if_neg h]
    rcases ho : env.listDocsOutcome S.name with e | ds
    · simp [ho, selectStoreDispatch, handleErrorState]
    · simp [ho, selectStoreDispatch]

/-- C4: after `selectStore(A)` then `selectStore(B)` with A ≠ B, the
documents state contains no document whose parent store is A (assuming the
service lists only documents of the queried store); selecting replaces the
selection and clears `documents`/`queryResult` in the dispatch state before
the fetch; selecting the already-selected store is a no-op. -/
theorem c4_select_store_no_stale_documents (env : CtrlEnv) (parent : Document → String)
    (A B : RagStore) (st : AppState)
    (hcons : ∀ s ds, env.listDocsOutcome s = Except.ok ds → ∀ d ∈ ds, parent d = s)
    (hne : A.name ≠ B.name) :
    (∀ d ∈ (handleSelectStore env B (handleSelectStore env A st).1).1.documents,
        parent d ≠ A.name) ∧
    (∀ (C : RagStore) (st' : AppState),
        st'.selectedStore.map RagStore.name = some C.name →
        handleSelectStore env C st' = (st', [])) ∧
    (∀ (C : RagStore) (st' : AppState),
        (selectStoreDispatch C st').selectedStore = some C ∧
        (selectStoreDispatch C st').documents = [] ∧
        (selectStoreDispatch C st').queryResult = none) := by
  refine ⟨?_, ?_, ?_⟩
  · intro d hd
    have h1 := selectStore_selectedName env A st
    set s1 := (handleSelectStore env A st).1 with hs1
    have hcond : ¬ (s1.selectedStore.map RagStore.name = some B.name) := by
      rw [h1]
      intro hcontra
      exact hne (Option.some.inj hcontra)
    simp only [handleSelectStore, if_neg hcond] at hd
    rcases ho : env.listDocsOutcome B.name with e | ds
    · simp [ho, selectStoreDispatch, handleErrorState] at hd
    · simp only [ho, selectStoreDispatch] at hd
      have hp := hcons B.name ds ho d hd
      rw [hp]
      intro hba
      exact hne hba.symm
  · intro C st' h
    simp only [handleSelectStore, if_pos h]
  · intro C st'
    exact ⟨rfl, rfl, rfl⟩

/-- C4 witness: the theorem applied at a concrete environment, stores, and
initial state, with both hypotheses discharged there. -/
theorem c4_witness :
    (∀ s ds, c4Env.listDocsOutcome s = Except.ok ds → ∀ d ∈ ds, c4Parent d = s) ∧
    storeA.name ≠ storeB.name ∧
    ((∀ d ∈ (handleSelectStore c4Env storeB
          (handleSelectStore c4Env storeA initialAppState).1).1.documents,
        c4Parent d ≠ storeA.name) ∧
     (∀ (C : RagStore) (st' : AppState),
        st'.selectedStore.map RagStore.name = some C.name →
        handleSelectStore c4Env C st' = (st', [])) ∧
     (∀ (C : RagStore) (st' : AppState),
        (selectStoreDispatch C st').selectedStore = some C ∧
        (selectStoreDispatch C st').documents = [] ∧
        (selectStoreDispatch C st').queryResult = none)) := by
  have hcons : ∀ s ds, c4Env.listDocsOutcome s = Except.ok ds → ∀ d ∈ ds, c4Parent d = s := by
    intro s ds h d hd
    simp only [c4Env, baseCtrlEnv] at h
    have hds : (if s = "corpora/b" then [docX] else []) = ds := Except.ok.inj h
    rw [← hds] at hd
    by_cases hs : s = "corpora/b"
    · rw [if_pos hs] at hd
      have hdx : d = docX := by simpa using hd
      rw [hdx, hs]
      decide
    · rw [if_neg hs] at hd
      simp at hd
  exact ⟨hcons, by decide,
    c4_select_store_no_stale_documents c4Env c4Parent storeA storeB initialAppState
      hcons (by decide)⟩

/-- C5: deleting the selected store (confirmed, remote delete succeeding)
first reaches a state with `selectedStore = none` and `documents = []`, and
only then applies the store-list reload — the final result of the handler is
`loadStores` applied to that cleared state. -/
theorem c5_delete_selected_store_clears_first (env : CtrlEnv) (st : AppState)
    (sel : RagStore)
    (hconfirm : env.confirmDelete = true)
    (hok : env.deleteStoreOutcome sel.name = Except.ok ())
    (hsel : st.selectedStore = some sel) :
    (deleteStoreCleared sel.name { st with isLoadingStores := true }).selectedStore = none ∧
    (deleteStoreCleared sel.name { st with isLoadingStores := true }).documents = [] ∧
    handleDeleteStore env sel.name st =
      ((loadStores env (deleteStoreCleared sel.name { st with isLoadingStores := true })).1,
       CtrlCall.deleteStore sel.name ::
         (loadStores env (deleteStoreCleared sel.name { st with isLoadingStores := true })).2) := by
  have hcl : ({ st with isLoadingStores := true } : AppState).selectedStore.map RagStore.name
      = some sel.name := by
    simp [hsel]
  refine ⟨?_, ?_, ?_⟩
  · simp [deleteStoreCleared, hcl]
  · simp [deleteStoreCleared, hcl]
  · simp [handleDeleteStore, hconfirm, hok]

/-- C5 witness: the theorem applied at a concrete environment and a state
with `storeA` selected, discharging every hypothesis there. -/
theorem c5_witness :
    baseCtrlEnv.confirmDelete = true ∧
    baseCtrlEnv.deleteStoreOutcome storeA.name = Except.ok () ∧
    c3St.selectedStore = some storeA ∧
    ((deleteStoreCleared storeA.name { c3St with isLoadingStores := true }).selectedStore = none ∧
     (deleteStoreCleared storeA.name { c3St with isLoadingStores := true }).documents = [] ∧
     handleDeleteStore baseCtrlEnv storeA.name c3St =
       ((loadStores baseCtrlEnv
           (deleteStoreCleared storeA.name { c3St with isLoadingStores := true })).1,
        CtrlCall.deleteStore storeA.name ::
          (loadStores baseCtrlEnv
            (deleteStoreCleared storeA.name { c3St with isLoadingStores := true })).2)) :=
  ⟨rfl, rfl, rfl,
   c5_delete_selected_store_clears_first baseCtrlEnv c3St storeA rfl rfl rfl⟩

/-- C6: with a store selected, the query dispatch state — the state from the
moment of invocation until the request resolves — has `queryResult = none`,
and the final state of the handler is built from that dispatch state according to
the outcome; one query call is issued. -/
theorem c6_query_clears_result_before_dispatch (env : CtrlEnv) (q : String)
    (st : AppState) (sel : RagStore) (hsel : st.selectedStore = some sel) :
    (queryDispatch st).queryResult = none ∧
    handleQuery env q st =
      ((match env.queryOutcome with
        | Except.ok r => { queryDispatch st with queryResult := some r, isQuerying := false }
        | Except.error e =>
          { handleErrorState "Failed to execute query" (some e) (queryDispatch st) with
              isQuerying := false }),
       [CtrlCall.fileSearchCall sel.name q]) := by
  refine ⟨rfl, ?_⟩
  simp only [handleQuery, hsel]
  rcases env.queryOutcome with e | r
  · rfl
  · rfl

/-- C6 witness: the theorem applied at a concrete environment, query, and
state with `storeA` selected, discharging the hypothesis there. -/
theorem c6_witness :
    c3St.selectedStore = some storeA ∧
    ((queryDispatch c3St).queryResult = none ∧
     handleQuery baseCtrlEnv "what is alpha" c3St =
       ((match baseCtrlEnv.queryOutcome with
         | Except.ok r => { queryDispatch c3St with queryResult := some r, isQuerying := false }
         | Except.error e =>
           { handleErrorState "Failed to execute query" (some e) (queryDispatch c3St) with
               isQuerying := false }),
        [CtrlCall.fileSearchCall storeA.name "what is alpha"])) :=
  ⟨rfl, c6_query_clears_result_before_dispatch baseCtrlEnv "what is alpha" c3St storeA rfl⟩

/-- C10: with no store selected, the uploadDocument,
deleteDocument, and query handlers return the state unchanged and issue no
service call. -/
theorem c10_no_selection_handlers_are_inert (env : CtrlEnv) (fileName docName q : String)
    (metadata : List CustomMetadata) (st : AppState) (hsel : st.selectedStore = none) :
    handleUploadDocument env fileName metadata st = (st, []) ∧
    handleDeleteDocument env docName st = (st, []) ∧
    handleQuery env q st = (st, []) := by
  refine ⟨?_, ?_, ?_⟩
  · simp only [handleUploadDocument, hsel]
  · simp only [handleDeleteDocument, hsel]
  · simp only [handleQuery, hsel]

/-- C10 witness: the theorem applied at a concrete environment and the
initial (selection-free) state, discharging the hypothesis there. -/
theorem c10_witness :
    initialAppState.selectedStore = none ∧
    (handleUploadDocument baseCtrlEnv "notes.txt" [] initialAppState = (initialAppState, []) ∧
     handleDeleteDocument baseCtrlEnv "corpora/a/documents/d1" initialAppState
       = (initialAppState, []) ∧
     handleQuery baseCtrlEnv "what is alpha" initialAppState = (initialAppState, [])) :=
  ⟨rfl, c10_no_selection_handlers_are_inert baseCtrlEnv "notes.txt" "corpora/a/documents/d1"
    "what is alpha" [] initialAppState rfl⟩

/-- C9: when the API_KEY credential is JS-falsy (absent or empty), the
initialization run leaves `initialized = false`, sets a non-null error whose
message contains "API_KEY", and clearing the error while the session never
initialized re-runs the initialization (`clearError` equals `loadStores` on
the error-cleared state). -/
theorem c9_missing_api_key_surfaces_error (env : CtrlEnv) (st : AppState)
    (hkey : env.apiKey = none ∨ env.apiKey = some "")
    (hinit : st.initialized = false) :
    (loadStores env st).1.initialized = false ∧
    (∃ msg, (loadStores env st).1.error = some msg ∧
      ∃ pre post, msg = pre ++ "API_KEY" ++ post) ∧
    clearError env st = loadStores env { st with error := none } := by
  have herr : svcInit env.apiKey = Except.error "API_KEY environment variable not set." := by
    rcases hkey with h | h <;> simp [svcInit, h]
  refine ⟨?_, ?_, ?_⟩
  · simp [loadStores, herr, handleErrorState, hinit]
  · refine ⟨"Failed to load RAG stores. Please ensure your API key is valid and has permissions.: API_KEY environment variable not set.",
      ?_,
      "Failed to load RAG stores. Please ensure your API key is valid and has permissions.: ",
      " environment variable not set.", by decide⟩
    simp only [loadStores, herr, handleErrorState, loadStoresFailMsg]
    decide
  · simp only [clearError, hinit]
    simp

/-- C9 witness: the theorem applied at a concrete environment with the
credential absent and the initial (uninitialized) state, discharging both
hypotheses there. -/
theorem c9_witness :
    (c9Env.apiKey = none ∨ c9Env.apiKey = some "") ∧
    initialAppState.initialized = false ∧
    ((loadStores c9Env initialAppState).1.initialized = false ∧
     (∃ msg, (loadStores c9Env initialAppState).1.error = some msg ∧
       ∃ pre post, msg = pre ++ "API_KEY" ++ post) ∧
     clearError c9Env initialAppState
       = loadStores c9Env { initialAppState with error := none }) :=
  ⟨Or.inl rfl, rfl,
   c9_missing_api_key_surfaces_error c9Env initialAppState (Or.inl rfl) rfl⟩

/-- C3 counterexample: at a concrete input where the upload rejects, the
handler completes with the document list not refreshed from the service (the
service would report the empty list, but `documents` still holds the
pre-upload entry) — refuting that the list is refreshed on completion
whether the call succeeds or fails. -/
theorem c3_counterexample :
    c3Env.listDocsOutcome storeA.name = Except.ok [] ∧
    (handleUploadDocument c3Env "notes.txt" [] c3St).1.documents = [docD1] ∧
    [docD1] ≠ ([] : List Document) := by
  refine ⟨rfl, ?_, by decide⟩
  decide

/-- C3 amended: with a store selected, uploadDocument and deleteDocument
always clear `processingTarget` on completion, but refresh the document list
only on success: when the client call and the subsequent list call both
succeed the list becomes the fetched one; when the client call fails the
list is left unchanged and an error is set. -/
theorem c3_refresh_only_on_success (env : CtrlEnv) (fileName docName : String)
    (metadata : List CustomMetadata) (st : AppState) (sel : RagStore)
    (hsel : st.selectedStore = some sel) :
    ((handleUploadDocument env fileName metadata st).1.processingFile = none ∧
     (∀ ds, env.uploadOutcome = Except.ok () →
        env.listDocsOutcome sel.name = Except.ok ds →
        (handleUploadDocument env fileName metadata st).1.documents = ds) ∧
     (∀ e, env.uploadOutcome = Except.error e →
        (handleUploadDocument env fileName metadata st).1.documents = st.documents ∧
        (handleUploadDocument env fileName metadata st).1.error ≠ none)) ∧
    ((handleDeleteDocument env docName st).1.processingFile = none ∧
     (∀ ds, env.deleteDocOutcome docName = Except.ok () →
        env.listDocsOutcome sel.name = Except.ok ds →
        (handleDeleteDocument env docName st).1.documents = ds) ∧
     (∀ e, env.deleteDocOutcome docName = Except.error e →
        (handleDeleteDocument env docName st).1.documents = st.documents ∧
        (handleDeleteDocument env docName st).1.error ≠ none)) := by
  constructor
  · refine ⟨?_, ?_, ?_⟩
    · rcases hu : env.uploadOutcome with e | u
      · simp [handleUploadDocument, hsel, hu, handleErrorState]
      · rcases hl : env.listDocsOutcome sel.name with e | ds
        · simp [handleUploadDocument, hsel, hu, hl, handleErrorState]
        · simp [handleUploadDocument, hsel, hu, hl]
    · intro ds hu hl
      simp [handleUploadDocument, hsel, hu, hl]
    · intro e hu
      simp [handleUploadDocument, hsel, hu, handleErrorState]
  · refine ⟨?_, ?_, ?_⟩
    · rcases hu : env.deleteDocOutcome docName with e | u
      · simp [handleDeleteDocument, hsel, hu, handleErrorState]
      · rcases hl : env.listDocsOutcome sel.name with e | ds
        · simp [handleDeleteDocument, hsel, hu, hl, handleErrorState]
        · simp [handleDeleteDocument, hsel, hu, hl]
    · intro ds hu hl
      simp [handleDeleteDocument, hsel, hu, hl]
    · intro e hu
      simp [handleDeleteDocument, hsel, hu, handleErrorState]

/-- C3 witness: the theorem applied at a concrete environment and a state
with `storeA` selected, discharging the hypothesis there. -/
theorem c3_witness :
    c3St.selectedStore = some storeA ∧
    (((handleUploadDocument baseCtrlEnv "notes.txt" [] c3St).1.processingFile = none ∧
      (∀ ds, baseCtrlEnv.uploadOutcome = Except.ok () →
         baseCtrlEnv.listDocsOutcome storeA.name = Except.ok ds →
         (handleUploadDocument baseCtrlEnv "notes.txt" [] c3St).1.documents = ds) ∧
      (∀ e, baseCtrlEnv.uploadOutcome = Except.error e →
         (handleUploadDocument baseCtrlEnv "notes.txt" [] c3St).1.documents = c3St.documents ∧
         (handleUploadDocument baseCtrlEnv "notes.txt" [] c3St).1.error ≠ none)) ∧
     ((handleDeleteDocument baseCtrlEnv "corpora/a/documents/d1" c3St).1.processingFile = none ∧
      (∀ ds, baseCtrlEnv.deleteDocOutcome "corpora/a/documents/d1" = Except.ok () →
         baseCtrlEnv.listDocsOutcome storeA.name = Except.ok ds →
         (handleDeleteDocument baseCtrlEnv "corpora/a/documents/d1" c3St).1.documents = ds) ∧
      (∀ e, baseCtrlEnv.deleteDocOutcome "corpora/a/documents/d1" = Except.error e →
         (handleDeleteDocument baseCtrlEnv "corpora/a/documents/d1" c3St).1.documents
           = c3St.documents ∧
         (handleDeleteDocument baseCtrlEnv "corpora/a/documents/d1" c3St).1.error ≠ none))) :=
  ⟨rfl, c3_refresh_only_on_success baseCtrlEnv "notes.txt" "corpora/a/documents/d1" []
    c3St storeA rfl⟩

end RagSandbox
